import Mathlib

/-!
Shallow embedding of django-mail-queue (mailqueue/models.py, mailqueue/tasks.py).

Modelling choices:
* Python strings are `List Char`; timestamps are `Int` (the unit is irrelevant,
  comments note hours where the source uses `timedelta(hours=...)`).
* The database table is a `List` kept in row-creation order (rows are appended
  on insert).
* The SMTP/API transport (`EmailMultiAlternatives.send`) is an oracle
  `TransportOutcome`: it either succeeds or raises an exception with a given
  Python class name.
* Attachment byte reads are modelled by fields on `Attachment`: for the
  django-storages S3 backend the read either returns the bytes or raises; for
  the local-filesystem backend `os.path.isfile` decides whether the file is
  attached or silently skipped (models.py `_attach_regular_file`).
* `do_not_send` is the transient flag the source sets on the instance
  (the spec calls it `suppressed`); it is carried on the record.
-/

/-- Python `str.split(sep)` for a single-character separator: splits at every
occurrence of `sep`, keeping empty pieces (so `"".split(',') == [""]`). -/
def pySplit (sep : Char) : List Char → List (List Char)
  | [] => [[]]
  | c :: rest =>
    if c = sep then [] :: pySplit sep rest
    else match pySplit sep rest with
      | [] => [[c]]
      | piece :: pieces => (c :: piece) :: pieces

/-- ASCII whitespace as stripped by Python `str.strip()`. -/
def isPySpace (c : Char) : Bool :=
  c = ' ' || c = '\t' || c = '\n' || c = '\r' || c = '\x0b' || c = '\x0c'

/-- Python `str.strip()`: drop whitespace from both ends. -/
def pyStrip (s : List Char) : List Char :=
  ((s.dropWhile isPySpace).reverse.dropWhile isPySpace).reverse

/-- The list comprehension used for every address field in `_send`
(models.py): `[email.strip() for email in field.split(',') if email.strip()]`. -/
def parseAddressList (s : List Char) : List (List Char) :=
  ((pySplit ',' s).filter (fun e => !(pyStrip e).isEmpty)).map pyStrip

/-- Truthiness of an optional Python string (`if self.reply_to:`). -/
def pyTruthy : Option (List Char) → Bool
  | none => false
  | some s => !s.isEmpty

/-- A `MailerMessage` row (models.py). `do_not_send` is the transient
instance attribute, not a database column. -/
structure MailerMessage where
  pk : Option Nat
  created : Option Int
  subject : List Char
  to_address : List Char
  cc_address : List Char
  bcc_address : List Char
  from_address : List Char
  reply_to : Option (List Char)
  content : List Char
  html_content : List Char
  app : List Char
  sent : Bool
  last_attempt : Option Int
  do_not_send : Bool
deriving DecidableEq

/-- An `Attachment` row together with the observable behaviour of its
storage backend at send time. `isS3` models the
`file_attachment.file.__class__.__name__ == 'S3Boto3StorageFile'` check;
`s3ReadOk`/`s3ExcName` model whether `file_attachment.read()` raises;
`fileOnDisk` models `os.path.isfile(path)` for the local backend. -/
structure Attachment where
  original_filename : List Char
  isS3 : Bool
  s3ReadOk : Bool
  fileOnDisk : Bool
  contentA : List Char
  s3ExcName : List Char
deriving DecidableEq

/-- Outcome of the external transport call `msg.send()`. -/
inductive TransportOutcome
  | success : TransportOutcome
  | failure (excName : List Char) : TransportOutcome
deriving DecidableEq

/-- The `EmailMultiAlternatives` object built by `_send`. -/
structure EmailMsg where
  subject : List Char
  body : List Char
  from_email : List Char
  toAddr : List (List Char)
  cc : List (List Char)
  bcc : List (List Char)
  replyTo : List (List Char)
  alternatives : List (List Char × List Char)
  attachments : List (List Char × List Char)
deriving DecidableEq

/-- Construction of the outgoing message in `_send` before the attachment
loop: subject/body/from in the constructor, then `reply_to` (only when the
field is truthy), the HTML alternative (only when non-empty), and the parsed
to/cc/bcc lists. -/
def buildEmail (m : MailerMessage) : EmailMsg :=
  { subject := m.subject
    body := m.content
    from_email := m.from_address
    toAddr := parseAddressList m.to_address
    cc := parseAddressList m.cc_address
    bcc := parseAddressList m.bcc_address
    replyTo := if pyTruthy m.reply_to then parseAddressList (m.reply_to.getD []) else []
    alternatives := if m.html_content.isEmpty then [] else [(m.html_content, "text/html".toList)]
    attachments := [] }

/-- The attachment loop of `_send`: an S3-backed attachment is read directly
(`_attach_s3_file`, whose `read()` may raise and the exception escapes the
loop), a local attachment is attached only when its file exists on disk
(`_attach_regular_file`) and is skipped otherwise, without logging. -/
def attachLoop (msg : EmailMsg) : List Attachment → Except (List Char) EmailMsg
  | [] => Except.ok msg
  | a :: rest =>
    if a.isS3 then
      if a.s3ReadOk then
        attachLoop { msg with attachments := msg.attachments ++ [(a.original_filename, a.contentA)] } rest
      else Except.error a.s3ExcName
    else
      if a.fileOnDisk then
        attachLoop { msg with attachments := msg.attachments ++ [(a.original_filename, a.contentA)] } rest
      else attachLoop msg rest

/-- Everything observable about one call of `MailerMessage._send`. `msg` is
the in-memory instance afterwards; `persisted` records whether `self.save()`
ran; `raised` is the Python exception class escaping the call, if any. -/
structure SendOutcome where
  msg : MailerMessage
  persisted : Bool
  transportCalled : Bool
  builtEmail : Option EmailMsg
  log : List (List Char)
  raised : Option (List Char)
deriving DecidableEq

/-- Log line from the `except` clause of `_send`. -/
def mailQueueExcLog (excName : List Char) : List Char :=
  "Mail Queue Exception: ".toList ++ excName

/-- `MailerMessage._send` (models.py). Guarded by `if not self.sent`; sets
`last_attempt`, builds the message, runs the attachment loop (whose
exceptions propagate before `self.save()` is reached), then calls the
transport inside `try`: on success `sent = True`, on any exception
`do_not_send = True` plus a log line; `self.save()` runs after the `try`. -/
def _send (m : MailerMessage) (atts : List Attachment) (transport : TransportOutcome)
    (now : Int) : SendOutcome :=
  if m.sent then
    { msg := m, persisted := false, transportCalled := false, builtEmail := none,
      log := [], raised := none }
  else
    let m1 : MailerMessage := { m with last_attempt := some now }
    match attachLoop (buildEmail m) atts with
    | Except.error excName =>
        { msg := m1, persisted := false, transportCalled := false, builtEmail := none,
          log := [], raised := some excName }
    | Except.ok built =>
        match transport with
        | TransportOutcome.success =>
            { msg := { m1 with sent := true }, persisted := true, transportCalled := true,
              builtEmail := some built, log := [], raised := none }
        | TransportOutcome.failure excName =>
            { msg := { m1 with do_not_send := true }, persisted := true, transportCalled := true,
              builtEmail := some built, log := [mailQueueExcLog excName], raised := none }

/-- A row of the message table together with its `attachment_set` and the
behaviour of the transport for this message's send. -/
structure DbRow where
  msg : MailerMessage
  atts : List Attachment
  transport : TransportOutcome
deriving DecidableEq

/-- The loop body of `MailerMessageManager.send_queued` for the inline path
(`MAILQUEUE_CELERY = False`, so `email.send_mail()` is `email._send()`): each
selected row is attempted in order; an exception escaping `_send` aborts the
remainder of the loop (the source has no try/except around the loop). -/
def attemptEach (now : Int) : List DbRow → List SendOutcome × Option (List Char)
  | [] => ([], none)
  | r :: rest =>
    let out := _send r.msg r.atts r.transport now
    match out.raised with
    | some excName => ([out], some excName)
    | none =>
        let rst := attemptEach now rest
        (out :: rst.1, rst.2)

/-- `MailerMessageManager.send_queued(limit)`: `self.filter(sent=False)[:limit]`
over the table in row-creation order, then one `_send` per selected row. -/
def send_queued (limit : Nat) (now : Int) (db : List DbRow) :
    List SendOutcome × Option (List Char) :=
  attemptEach now ((db.filter (fun r => !r.msg.sent)).take limit)

/-- The SQL `last_attempt__lte=delete_before` predicate: a NULL
`last_attempt` matches no comparison. -/
def lastAttemptLte : Option Int → Int → Bool
  | none, _ => false
  | some t, cutoff => decide (t ≤ cutoff)

/-- `MailerMessageManager.clear_sent_messages(offset)`: deletes every row with
`sent=True, last_attempt__lte=now - offset` (`offset` is in hours in the
source; the time unit is opaque here). The survivors are returned. -/
def clear_sent_messages (db : List MailerMessage) (offset : Int) (now : Int) :
    List MailerMessage :=
  let delete_before := now - offset
  db.filter (fun m => !(m.sent && lastAttemptLte m.last_attempt delete_before))

/-- Attachment metadata row (`Attachment.save()` result): which blob in the
storage backend it references (`none` models a NULL `file_attachment`), its
owning message and original filename. -/
structure AttachmentRow where
  blobId : Option Nat
  email_pk : Nat
  original_filename : List Char
deriving DecidableEq

/-- The persistent state touched by `add_attachment`: a pk counter for
`_save_without_sending`, the storage backend's blobs (`file_attachment.save`
writes one, `file_attachment.delete` removes it), and the attachment
metadata table. -/
structure MailDb where
  nextPk : Nat
  nextBlob : Nat
  blobs : List (Nat × List Char)
  attachmentRows : List AttachmentRow
deriving DecidableEq

/-- Python `attachment.file.name.split(os.sep)[-1]`. -/
def pyBasename (name : List Char) : List Char :=
  (pySplit '/' name).getLastD []

/-- Result of `MailerMessage.add_attachment`. -/
structure AddAttachmentResult where
  db : MailDb
  msg : MailerMessage
  log : List (List Char)
  raised : Option (List Char)
deriving DecidableEq

/-- `MailerMessage.add_attachment(attachment)` (models.py): assigns a pk via
`_save_without_sending` when absent (which also sets `do_not_send`), writes
the blob with `file_attachment.save(..., save=False)`, then tries
`new_attachment.save()` inside `try` (`metadataSaveOk` is the oracle for that
call, `excName` the class of its exception). On failure the except clause
logs the exception and calls `new_attachment.file_attachment.delete()`;
Django's `FieldFile.delete` defaults to `save=True`, so after removing the
blob and nulling the file field it re-runs `instance.save()` (`retrySaveOk`
is that second call's oracle): if that save fails again its exception
escapes `add_attachment`, and if it succeeds a metadata row with a NULL
file reference is persisted. -/
def add_attachment (db : MailDb) (m : MailerMessage) (fileName fileBytes : List Char)
    (metadataSaveOk retrySaveOk : Bool) (excName : List Char) : AddAttachmentResult :=
  let dbm : MailDb × MailerMessage :=
    match m.pk with
    | some _ => (db, m)
    | none => ({ db with nextPk := db.nextPk + 1 },
               { m with pk := some db.nextPk, do_not_send := true })
  let db1 := dbm.1
  let m1 := dbm.2
  let original_filename := pyBasename fileName
  let blobId := db1.nextBlob
  let db2 : MailDb :=
    { db1 with
      nextBlob := db1.nextBlob + 1
      blobs := db1.blobs ++ [(blobId, fileBytes)] }
  if metadataSaveOk then
    { db := { db2 with attachmentRows :=
                db2.attachmentRows ++ [⟨some blobId, m1.pk.getD 0, original_filename⟩] },
      msg := m1, log := [], raised := none }
  else
    let db3 : MailDb := { db2 with blobs := db2.blobs.filter (fun b => b.1 != blobId) }
    if retrySaveOk then
      { db := { db3 with attachmentRows :=
                  db3.attachmentRows ++ [⟨none, m1.pk.getD 0, original_filename⟩] },
        msg := m1, log := [excName], raised := none }
    else
      { db := db3, msg := m1, log := [excName], raised := some excName }

/-- The exception class name special-cased in tasks.py. -/
def anymailRefusedName : List Char := "AnymailRecipientsRefused".toList

/-- The celery task `send_mail` (tasks.py), unrolled over its retry budget
(`max_retries = 5` in the source). Each invocation fetches the persisted row,
calls `_send` inside `try` — returning without retry only when the escaping
exception is named `AnymailRecipientsRefused` — and then calls
`self.retry` whenever `message.sent` is still false. Returns the final
persisted row and the total number of `_send` invocations. -/
def tasks_send_mail (atts : List Attachment) (transport : TransportOutcome) (now : Int) :
    Nat → MailerMessage → MailerMessage × Nat
  | retriesLeft, row =>
    let out := _send row atts transport now
    let row' := if out.persisted then out.msg else row
    if out.raised = some anymailRefusedName then
      (row', 1)
    else if out.msg.sent then
      (row', 1)
    else
      match retriesLeft with
      | 0 => (row', 1)
      | n + 1 =>
          let r := tasks_send_mail atts transport now n row'
          (r.1, r.2 + 1)

/-- No attachment of the list makes `_send` raise: every S3-backed
attachment's read succeeds (local-backend reads never raise — the file is
checked with `os.path.isfile` first). -/
def noRaise (atts : List Attachment) : Prop :=
  ∀ a ∈ atts, a.isS3 = true → a.s3ReadOk = true

instance (atts : List Attachment) : Decidable (noRaise atts) := by
  unfold noRaise; infer_instance

/-- The (filename, bytes) pairs actually attached by the attachment loop when
nothing raises: S3 attachments whose read succeeds and local attachments
whose file exists, in order. -/
def attachedList (atts : List Attachment) : List (List Char × List Char) :=
  (atts.filter (fun a => if a.isS3 then a.s3ReadOk else a.fileOnDisk)).map
    (fun a => (a.original_filename, a.contentA))

/-- A representative pending message. -/
def sampleMsg : MailerMessage :=
  { pk := some 1, created := some 0, subject := "hello".toList,
    to_address := "a@x.com".toList, cc_address := [], bcc_address := [],
    from_address := "noreply@x.com".toList, reply_to := none,
    content := "body".toList, html_content := [], app := [],
    sent := false, last_attempt := none, do_not_send := false }

/-- A message already delivered. -/
def sentMsg : MailerMessage := { sampleMsg with sent := true, last_attempt := some 10 }

/-- An S3-backed attachment whose `read()` raises. -/
def s3BadAtt : Attachment :=
  { original_filename := "report.pdf".toList, isS3 := true, s3ReadOk := false,
    fileOnDisk := true, contentA := [], s3ExcName := "ClientError".toList }

/-- A local-backend attachment whose file is absent from disk. -/
def missingAtt : Attachment :=
  { original_filename := "gone.txt".toList, isS3 := false, s3ReadOk := true,
    fileOnDisk := false, contentA := "XYZ".toList, s3ExcName := [] }

/-- A local-backend attachment whose file exists. -/
def okAtt : Attachment :=
  { original_filename := "ok.txt".toList, isS3 := false, s3ReadOk := true,
    fileOnDisk := true, contentA := "DATA".toList, s3ExcName := [] }

/-- Under `noRaise`, the attachment loop succeeds and appends exactly the
attachments whose backend read works. -/
theorem attachLoop_ok (atts : List Attachment) (msg : EmailMsg) (h : noRaise atts) :
    attachLoop msg atts =
      Except.ok { msg with attachments := msg.attachments ++ attachedList atts } := by
  induction atts generalizing msg with
  | nil => simp [attachLoop, attachedList]
  | cons a rest ih =>
    have hrest : noRaise rest := fun x hx => h x (List.mem_cons_of_mem a hx)
    by_cases hs3 : a.isS3 = true
    · have hok : a.s3ReadOk = true := h a (List.mem_cons_self a rest) hs3
      rw [show attachLoop msg (a :: rest) =
            attachLoop { msg with attachments :=
              msg.attachments ++ [(a.original_filename, a.contentA)] } rest by
            simp [attachLoop, hs3, hok]]
      rw [ih _ hrest]
      simp [attachedList, List.filter_cons, hs3, hok]
    · simp only [Bool.not_eq_true] at hs3
      by_cases hd : a.fileOnDisk = true
      · rw [show attachLoop msg (a :: rest) =
              attachLoop { msg with attachments :=
                msg.attachments ++ [(a.original_filename, a.contentA)] } rest by
              simp [attachLoop, hs3, hd]]
        rw [ih _ hrest]
        simp [attachedList, List.filter_cons, hs3, hd]
      · simp only [Bool.not_eq_true] at hd
        rw [show attachLoop msg (a :: rest) = attachLoop msg rest by
              simp [attachLoop, hs3, hd]]
        rw [ih _ hrest]
        simp [attachedList, List.filter_cons, hs3, hd]

/-- Under `noRaise`, no exception escapes `_send`. -/
theorem send_raised_none (m : MailerMessage) (atts : List Attachment)
    (t : TransportOutcome) (now : Int) (h : noRaise atts) :
    (_send m atts t now).raised = none := by
  by_cases hs : m.sent = true
  · simp [_send, hs]
  · simp only [Bool.not_eq_true] at hs
    cases t <;> simp [_send, hs, attachLoop_ok atts (buildEmail m) h]

/-- When no row raises, the batch loop reaches every row. -/
theorem attemptEach_no_raise (now : Int) (l : List DbRow)
    (h : ∀ r ∈ l, noRaise r.atts) :
    (attemptEach now l).2 = none ∧ (attemptEach now l).1.length = l.length := by
  induction l with
  | nil => simp [attemptEach]
  | cons r rest ih =>
    have h1 := send_raised_none r.msg r.atts r.transport now (h r (List.mem_cons_self r rest))
    have h2 := ih (fun x hx => h x (List.mem_cons_of_mem r hx))
    simp [attemptEach, h1, h2.1, h2.2]

/-- The batch loop never attempts more rows than it is given. -/
theorem attemptEach_length_le (now : Int) (l : List DbRow) :
    (attemptEach now l).1.length ≤ l.length := by
  induction l with
  | nil => simp [attemptEach]
  | cons r rest ih =>
    simp only [attemptEach]
    cases h : (_send r.msg r.atts r.transport now).raised with
    | some e => simp [h]
    | none => simp only [h]; simpa using Nat.succ_le_succ ih

/-- C1: for every message with `sent = false`, a transport failure during the
single-attempt send sets the suppression flag (`do_not_send`), leaves
`sent = false`, persists the row, and raises nothing to the batch caller;
consequently a batch in which transports fail still attempts every selected
message. -/
theorem C1_transport_failure_suppresses_and_batch_continues :
    (∀ (m : MailerMessage) (atts : List Attachment) (excName : List Char) (now : Int),
        m.sent = false → noRaise atts →
        (_send m atts (TransportOutcome.failure excName) now).msg.do_not_send = true ∧
        (_send m atts (TransportOutcome.failure excName) now).msg.sent = false ∧
        (_send m atts (TransportOutcome.failure excName) now).persisted = true ∧
        (_send m atts (TransportOutcome.failure excName) now).raised = none) ∧
    (∀ (db : List DbRow) (limit : Nat) (now : Int),
        (∀ r ∈ db, noRaise r.atts) →
        (send_queued limit now db).2 = none ∧
        (send_queued limit now db).1.length =
          ((db.filter (fun r => !r.msg.sent)).take limit).length) := by
  constructor
  · intro m atts excName now hs hn
    simp [_send, hs, attachLoop_ok atts (buildEmail m) hn]
  · intro db limit now h
    have hb : ∀ r ∈ (db.filter (fun r => !r.msg.sent)).take limit, noRaise r.atts :=
      fun r hr => h r ((List.filter_sublist db).subset (List.mem_of_mem_take hr))
    exact attemptEach_no_raise now _ hb

/-- Witness for C1 at a concrete pending message and one-row batch. -/
theorem C1_witness :
    ((_send sampleMsg [okAtt] (TransportOutcome.failure "SMTPException".toList) 5).msg.do_not_send = true ∧
     (_send sampleMsg [okAtt] (TransportOutcome.failure "SMTPException".toList) 5).msg.sent = false ∧
     (_send sampleMsg [okAtt] (TransportOutcome.failure "SMTPException".toList) 5).persisted = true ∧
     (_send sampleMsg [okAtt] (TransportOutcome.failure "SMTPException".toList) 5).raised = none) ∧
    ((send_queued 2 5 [⟨sampleMsg, [okAtt], TransportOutcome.failure "SMTPException".toList⟩]).2 = none ∧
     (send_queued 2 5 [⟨sampleMsg, [okAtt], TransportOutcome.failure "SMTPException".toList⟩]).1.length =
       ((([⟨sampleMsg, [okAtt], TransportOutcome.failure "SMTPException".toList⟩] :
           List DbRow).filter (fun r => !r.msg.sent)).take 2).length) :=
  ⟨C1_transport_failure_suppresses_and_batch_continues.1 sampleMsg [okAtt]
      "SMTPException".toList 5 rfl (by decide),
   C1_transport_failure_suppresses_and_batch_continues.2
      [⟨sampleMsg, [okAtt], TransportOutcome.failure "SMTPException".toList⟩] 2 5 (by decide)⟩

/-- C2: invoking the single-attempt send on a message with `sent = true` is a
no-op: no transport call, no persistence, no log, no exception, and the
message record is unchanged. -/
theorem C2_sent_message_send_is_noop (m : MailerMessage) (atts : List Attachment)
    (t : TransportOutcome) (now : Int) (h : m.sent = true) :
    _send m atts t now =
      { msg := m, persisted := false, transportCalled := false, builtEmail := none,
        log := [], raised := none } := by
  simp [_send, h]

/-- Witness for C2 at a concrete already-sent message. -/
theorem C2_witness :
    sentMsg.sent = true ∧
    _send sentMsg [okAtt] TransportOutcome.success 42 =
      { msg := sentMsg, persisted := false, transportCalled := false, builtEmail := none,
        log := [], raised := none } :=
  ⟨rfl, C2_sent_message_send_is_noop sentMsg [okAtt] TransportOutcome.success 42 rfl⟩

/-- The message object is built with an empty attachment list. -/
theorem buildEmail_attachments (m : MailerMessage) : (buildEmail m).attachments = [] := rfl

/-- C3 counterexample: persistence after an attempt does not hold for every
outcome — a pending message with an S3-backed attachment whose read raises
leaves `_send` without `self.save()` having run. -/
theorem C3_counterexample :
    ¬ (∀ (m : MailerMessage) (atts : List Attachment) (t : TransportOutcome) (now : Int),
        m.sent = false → (_send m atts t now).persisted = true) := by
  intro h
  exact absurd (h sampleMsg [s3BadAtt] TransportOutcome.success 3 rfl) (by decide)

/-- C3 (amended): for a message with `sent = false` at entry, the row
(with `last_attempt` and the resulting state) is persisted before `_send`
returns exactly when no exception escapes the call; a remote-backend
attachment-read failure escapes and skips persistence. -/
theorem C3_persisted_iff_no_exception (m : MailerMessage) (atts : List Attachment)
    (t : TransportOutcome) (now : Int) (h : m.sent = false) :
    ((_send m atts t now).raised = none ↔ (_send m atts t now).persisted = true) ∧
    ((_send m atts t now).persisted = true →
      (_send m atts t now).msg.last_attempt = some now) := by
  cases hA : attachLoop (buildEmail m) atts with
  | error e => simp [_send, h, hA]
  | ok built => cases t <;> simp [_send, h, hA]

/-- Witness for C3 (amended) at a concrete message. -/
theorem C3_witness :
    ((_send sampleMsg [okAtt] TransportOutcome.success 9).raised = none ↔
      (_send sampleMsg [okAtt] TransportOutcome.success 9).persisted = true) ∧
    ((_send sampleMsg [okAtt] TransportOutcome.success 9).persisted = true →
      (_send sampleMsg [okAtt] TransportOutcome.success 9).msg.last_attempt = some 9) :=
  C3_persisted_iff_no_exception sampleMsg [okAtt] TransportOutcome.success 9 rfl

/-- C4: evaluating the retry wrapper at the failing input. A pending message
whose transport raises `AnymailRecipientsRefused` on every attempt is
attempted 6 times (initial call plus the whole `max_retries = 5` budget):
`_send` catches the transport exception internally, so the wrapper's
special case for that exception name is unreachable and it keeps retrying
because `message.sent` is still false. -/
theorem C4_permanent_rejection_still_retried :
    (tasks_send_mail [] (TransportOutcome.failure anymailRefusedName) 0 5 sampleMsg).2 = 6 ∧
    (tasks_send_mail [] (TransportOutcome.failure anymailRefusedName) 0 5 sampleMsg).1.sent = false ∧
    (tasks_send_mail [] (TransportOutcome.failure anymailRefusedName) 0 5 sampleMsg).1.do_not_send = true := by
  decide

/-- C5 counterexample: a missing local-backend attachment is skipped without
any log entry — the run the claim describes produces an empty log. -/
theorem C5_counterexample :
    ¬ (∀ (m : MailerMessage) (atts : List Attachment) (now : Int),
        m.sent = false → (∃ a ∈ atts, a.isS3 = false ∧ a.fileOnDisk = false) →
        (_send m atts TransportOutcome.success now).log ≠ []) := by
  intro h
  exact h sampleMsg [missingAtt, okAtt] 7 rfl ⟨missingAtt, by decide⟩ (by decide)

/-- C5 (amended): a local-backend attachment whose file is absent is skipped
silently (no log entry), the remaining attachments are still attached,
delivery proceeds with no exception to the caller, and on transport success
the message is marked `sent = true`. -/
theorem C5_missing_local_attachment_skipped_silently
    (m : MailerMessage) (atts : List Attachment) (now : Int)
    (h : m.sent = false) (hn : noRaise atts) :
    (_send m atts TransportOutcome.success now).raised = none ∧
    (_send m atts TransportOutcome.success now).log = [] ∧
    (_send m atts TransportOutcome.success now).msg.sent = true ∧
    (_send m atts TransportOutcome.success now).builtEmail =
      some { buildEmail m with attachments := attachedList atts } := by
  simp [_send, h, attachLoop_ok atts (buildEmail m) hn, buildEmail_attachments]

/-- Witness for C5 (amended): one absent and one present local attachment. -/
theorem C5_witness :
    (_send sampleMsg [missingAtt, okAtt] TransportOutcome.success 7).raised = none ∧
    (_send sampleMsg [missingAtt, okAtt] TransportOutcome.success 7).log = [] ∧
    (_send sampleMsg [missingAtt, okAtt] TransportOutcome.success 7).msg.sent = true ∧
    (_send sampleMsg [missingAtt, okAtt] TransportOutcome.success 7).builtEmail =
      some { buildEmail sampleMsg with attachments := attachedList [missingAtt, okAtt] } :=
  C5_missing_local_attachment_skipped_silently sampleMsg [missingAtt, okAtt] 7 rfl (by decide)

/-- A concrete store with two blobs already present. -/
def sampleDb : MailDb :=
  { nextPk := 5, nextBlob := 2, blobs := [(0, "AA".toList), (1, "BB".toList)],
    attachmentRows := [] }

/-- C6: evaluating `add_attachment` at the failing input. When the metadata
save fails, the rollback `file_attachment.delete()` (Django default
`save=True`) does delete the just-written blob, but then re-runs the
metadata save: in the persistent-failure case that second save's exception
escapes `add_attachment`, and in the transient case it persists a metadata
row with a NULL file reference — so the failure is not contained as the
claim states. -/
theorem C6_metadata_failure_escapes_or_orphans_row :
    ((add_attachment sampleDb sampleMsg "/tmp/up/img.png".toList "PNG".toList false false
        "DatabaseError".toList).raised = some "DatabaseError".toList ∧
     (add_attachment sampleDb sampleMsg "/tmp/up/img.png".toList "PNG".toList false false
        "DatabaseError".toList).db.blobs = sampleDb.blobs) ∧
    ((add_attachment sampleDb sampleMsg "/tmp/up/img.png".toList "PNG".toList false true
        "DatabaseError".toList).raised = none ∧
     (add_attachment sampleDb sampleMsg "/tmp/up/img.png".toList "PNG".toList false true
        "DatabaseError".toList).db.attachmentRows =
       sampleDb.attachmentRows ++ [⟨none, 1, "img.png".toList⟩] ∧
     (add_attachment sampleDb sampleMsg "/tmp/up/img.png".toList "PNG".toList false true
        "DatabaseError".toList).db.blobs = sampleDb.blobs) := by
  decide

/-- C7: the purge retains exactly the rows that are not (sent with a
non-null `last_attempt` at or before `now - offset`): a sent row attempted
at or before the cutoff is deleted, a sent row attempted after it is
retained, and an unsent row is always retained. -/
theorem C7_purge_deletes_exactly_old_sent (db : List MailerMessage) (offset now : Int)
    (m : MailerMessage) :
    m ∈ clear_sent_messages db offset now ↔
      m ∈ db ∧ ¬(m.sent = true ∧ ∃ t, m.last_attempt = some t ∧ t ≤ now - offset) := by
  simp only [clear_sent_messages, List.mem_filter]
  refine and_congr_right fun _ => ?_
  cases hla : m.last_attempt with
  | none => cases hs : m.sent <;> simp [lastAttemptLte, hla, hs]
  | some t0 => cases hs : m.sent <;> simp [lastAttemptLte, hla, hs]

/-- A sent message attempted recently (after the cutoff). -/
def sentRecentMsg : MailerMessage := { sampleMsg with sent := true, last_attempt := some 90 }

/-- An unsent message attempted long ago. -/
def unsentOldMsg : MailerMessage := { sampleMsg with sent := false, last_attempt := some 0 }

/-- Witness for C7: with `now = 100` and window `30` (cutoff `70`), the sent
row attempted at `90` and the unsent row survive while the sent row
attempted at `10` is deleted. -/
theorem C7_witness :
    sentRecentMsg ∈ clear_sent_messages [sentMsg, sentRecentMsg, unsentOldMsg] 30 100 ∧
    unsentOldMsg ∈ clear_sent_messages [sentMsg, sentRecentMsg, unsentOldMsg] 30 100 ∧
    sentMsg ∉ clear_sent_messages [sentMsg, sentRecentMsg, unsentOldMsg] 30 100 := by
  refine ⟨?_, ?_, ?_⟩
  · exact (C7_purge_deletes_exactly_old_sent _ 30 100 sentRecentMsg).mpr
      ⟨by decide, by rintro ⟨_, t, ht, hle⟩; simp [sentRecentMsg, sampleMsg] at ht; omega⟩
  · exact (C7_purge_deletes_exactly_old_sent _ 30 100 unsentOldMsg).mpr
      ⟨by decide, by rintro ⟨hs, _⟩; simp [unsentOldMsg, sampleMsg] at hs⟩
  · intro hmem
    exact ((C7_purge_deletes_exactly_old_sent _ 30 100 sentMsg).mp hmem).2
      ⟨rfl, 10, rfl, by omega⟩

/-- C9: one batch invocation runs the per-message attempt on
`filter(sent=False)[:limit]` of the table in row-creation order: at most
`limit` rows, all unsent, order-preserving (a sublist of the table), and at
most `limit` attempts are made. -/
theorem C9_batch_selects_limited_unsent_in_order (db : List DbRow) (limit : Nat) (now : Int) :
    send_queued limit now db =
      attemptEach now ((db.filter (fun r => !r.msg.sent)).take limit) ∧
    ((db.filter (fun r => !r.msg.sent)).take limit).length ≤ limit ∧
    (∀ r ∈ (db.filter (fun r => !r.msg.sent)).take limit, r.msg.sent = false) ∧
    List.Sublist ((db.filter (fun r => !r.msg.sent)).take limit) db ∧
    (send_queued limit now db).1.length ≤ limit := by
  refine ⟨rfl, ?_, ?_, ?_, ?_⟩
  · rw [List.length_take]; exact min_le_left _ _
  · intro r hr
    have hb := (List.mem_filter.mp (List.mem_of_mem_take hr)).2
    simpa using hb
  · exact (List.take_sublist _ _).trans (List.filter_sublist db)
  · exact le_trans (attemptEach_length_le now _)
      (by rw [List.length_take]; exact min_le_left _ _)

/-- A concrete two-row table: one sent row, one pending row. -/
def sampleRows : List DbRow :=
  [⟨sentMsg, [], TransportOutcome.success⟩, ⟨sampleMsg, [okAtt], TransportOutcome.success⟩]

/-- Witness for C9 at the concrete table with limit 1. -/
theorem C9_witness :
    ((sampleRows.filter (fun r => !r.msg.sent)).take 1).length ≤ 1 ∧
    (∀ r ∈ (sampleRows.filter (fun r => !r.msg.sent)).take 1, r.msg.sent = false) ∧
    (send_queued 1 0 sampleRows).1.length ≤ 1 :=
  ⟨(C9_batch_selects_limited_unsent_in_order sampleRows 1 0).2.1,
   (C9_batch_selects_limited_unsent_in_order sampleRows 1 0).2.2.1,
   (C9_batch_selects_limited_unsent_in_order sampleRows 1 0).2.2.2.2⟩

/-- C10: the purge never deletes a row whose `last_attempt` is NULL, even
when `sent = true`: the SQL `lte` comparison matches no NULL, so the row is
retained regardless of its age. -/
theorem C10_null_last_attempt_never_purged (db : List MailerMessage) (offset now : Int)
    (m : MailerMessage) (hm : m ∈ db) (hnull : m.last_attempt = none) :
    m ∈ clear_sent_messages db offset now := by
  refine List.mem_filter.mpr ⟨hm, ?_⟩
  simp [lastAttemptLte, hnull]

/-- A sent message that was never attempted (NULL `last_attempt`). -/
def sentNullMsg : MailerMessage := { sampleMsg with sent := true, last_attempt := none }

/-- Witness for C10: a sent, never-attempted row survives a purge with a
huge `now`. -/
theorem C10_witness : sentNullMsg ∈ clear_sent_messages [sentNullMsg] 30 1000000 :=
  C10_null_last_attempt_never_purged [sentNullMsg] 30 1000000 sentNullMsg (by decide) rfl

/-- Whatever `dropWhile p` keeps starts with an element refuting `p`. -/
theorem dropWhile_head?_not (p : Char → Bool) (l : List Char) (c : Char)
    (h : (l.dropWhile p).head? = some c) : p c = false := by
  induction l with
  | nil => simp [List.dropWhile] at h
  | cons a t ih =>
    rw [List.dropWhile_cons] at h
    by_cases hp : p a = true
    · rw [if_pos hp] at h; exact ih h
    · rw [if_neg hp] at h
      simp only [List.head?_cons, Option.some.injEq] at h
      subst h
      simpa using hp

/-- `dropWhile` keeps the last element when it keeps anything at all. -/
theorem dropWhile_getLast? (p : Char → Bool) (l : List Char)
    (h : l.dropWhile p ≠ []) : (l.dropWhile p).getLast? = l.getLast? := by
  induction l with
  | nil => simp [List.dropWhile] at h
  | cons a t ih =>
    by_cases hp : p a = true
    · rw [List.dropWhile_cons, if_pos hp] at h ⊢
      rw [ih h]
      cases t with
      | nil => simp [List.dropWhile] at h
      | cons b u => rw [List.getLast?_cons_cons]
    · rw [List.dropWhile_cons, if_neg hp]

/-- A list whose head refutes `p` is untouched by `dropWhile p`. -/
theorem dropWhile_eq_self_of_head? (p : Char → Bool) (l : List Char)
    (h : ∀ c, l.head? = some c → p c = false) : l.dropWhile p = l := by
  cases l with
  | nil => simp [List.dropWhile]
  | cons a t =>
    have ha := h a rfl
    simp [List.dropWhile_cons, ha]

/-- A stripped string has no leading whitespace. -/
theorem pyStrip_head? (l : List Char) (c : Char) (h : (pyStrip l).head? = some c) :
    isPySpace c = false := by
  unfold pyStrip at h
  rw [List.head?_reverse] at h
  by_cases hne : ((l.dropWhile isPySpace).reverse).dropWhile isPySpace = []
  · rw [hne] at h; simp at h
  · rw [dropWhile_getLast? _ _ hne, List.getLast?_reverse] at h
    exact dropWhile_head?_not isPySpace l c h

/-- A stripped string has no trailing whitespace. -/
theorem pyStrip_getLast? (l : List Char) (c : Char) (h : (pyStrip l).getLast? = some c) :
    isPySpace c = false := by
  unfold pyStrip at h
  rw [List.getLast?_reverse] at h
  exact dropWhile_head?_not isPySpace _ c h

/-- Stripping leaves a string with clean ends unchanged. -/
theorem pyStrip_eq_self (l : List Char)
    (h1 : ∀ c, l.head? = some c → isPySpace c = false)
    (h2 : ∀ c, l.getLast? = some c → isPySpace c = false) : pyStrip l = l := by
  unfold pyStrip
  rw [dropWhile_eq_self_of_head? _ _ h1,
    dropWhile_eq_self_of_head? isPySpace l.reverse
      (fun c hc => h2 c (by rwa [List.head?_reverse] at hc)),
    List.reverse_reverse]

/-- Python `strip` is idempotent. -/
theorem pyStrip_idem (l : List Char) : pyStrip (pyStrip l) = pyStrip l :=
  pyStrip_eq_self _ (pyStrip_head? l) (pyStrip_getLast? l)

/-- C8: address-list parsing splits on commas, strips each entry and drops
the empty ones — `"a@x.com, , b@y.com ,"` parses to exactly
`["a@x.com", "b@y.com"]`, every parsed entry is non-empty and already
stripped, and `_send` applies this parser to all four address fields
(`reply_to` whenever the field is truthy). -/
theorem C8_address_list_parsing :
    (parseAddressList "a@x.com, , b@y.com ,".toList
        = ["a@x.com".toList, "b@y.com".toList]) ∧
    (∀ (s e : List Char), e ∈ parseAddressList s → pyStrip e = e ∧ e ≠ []) ∧
    (∀ m : MailerMessage,
        (buildEmail m).toAddr = parseAddressList m.to_address ∧
        (buildEmail m).cc = parseAddressList m.cc_address ∧
        (buildEmail m).bcc = parseAddressList m.bcc_address ∧
        (pyTruthy m.reply_to = true →
          (buildEmail m).replyTo = parseAddressList (m.reply_to.getD []))) := by
  refine ⟨by decide, ?_, ?_⟩
  · intro s e he
    unfold parseAddressList at he
    rw [List.mem_map] at he
    obtain ⟨x, hx, rfl⟩ := he
    have hxe := (List.mem_filter.mp hx).2
    refine ⟨pyStrip_idem x, ?_⟩
    simpa using hxe
  · intro m
    refine ⟨rfl, rfl, rfl, fun h => ?_⟩
    simp [buildEmail, h]

/-- A message with a non-empty reply-to field. -/
def sampleReplyMsg : MailerMessage :=
  { sampleMsg with reply_to := some "r@x.com, s@y.com".toList }

/-- Witness for C8: a parsed entry is stripped and non-empty, and the built
message's reply-to comes from the parser. -/
theorem C8_witness :
    (pyStrip "a@x.com".toList = "a@x.com".toList ∧ "a@x.com".toList ≠ []) ∧
    (buildEmail sampleReplyMsg).replyTo = parseAddressList (sampleReplyMsg.reply_to.getD []) :=
  ⟨C8_address_list_parsing.2.1 "a@x.com, , b@y.com ,".toList "a@x.com".toList (by decide),
   (C8_address_list_parsing.2.2 sampleReplyMsg).2.2.2 (by decide)⟩
